import Mathlib

/-!
Verification of the career-chatbot backend core (dataset.py, nlp_model.py, logic.py, api.py).

Modelling conventions:
* Python floats are modelled as exact rationals (`ℚ`); `float("inf")` upper bounds are
  modelled as `Option ℚ` with `none` standing for infinity.
* Python values that can be `None`, a string, or an int are modelled by `PyVal`.
* The TF-IDF vectorizer and cosine similarity (sklearn) are modelled by an abstract
  similarity oracle `cos : String → Nat → ℚ`, mapping a query text and a career index to
  the cosine similarity `cosine_similarity(vectorize(query), career_vectors[i])`.
  Every theorem about the pipeline is proved for an arbitrary oracle.
* String operations (`.lower()`, `.strip()`, `in`, `' '.join`) are modelled by structural
  functions on the character list of a `String`, so that they compute inside the kernel.
-/

/-- A Python value as it appears in the request/argument positions of this code base:
`None`, a `str`, or an `int`. -/
inductive PyVal where
  | none
  | str (s : String)
  | int (n : Int)
deriving DecidableEq, Repr

/-- The Python exception kinds this code can raise from the modelled paths. -/
inductive PyError where
  | typeError
deriving DecidableEq, Repr

/-- Python `str(v)`. -/
def pyStr : PyVal → String
  | PyVal.none => "None"
  | PyVal.str s => s
  | PyVal.int n => toString n

/-- Python truthiness of a value (`if v:`). -/
def pyTruthy : PyVal → Bool
  | PyVal.none => false
  | PyVal.str s => decide (s.data ≠ [])
  | PyVal.int n => decide (n ≠ 0)

/-- Python `s.lower()` (ASCII; all strings in this code base are ASCII). -/
def pyLower (s : String) : String := ⟨s.data.map Char.toLower⟩

/-- Python `s.strip()`: drop leading and trailing whitespace. -/
def pyStrip (s : String) : String :=
  ⟨((s.data.dropWhile Char.isWhitespace).reverse.dropWhile Char.isWhitespace).reverse⟩

/-- Occurrence of `needle` as a contiguous sublist of `hay` (Python `needle in hay`). -/
def containsSubAux (needle : List Char) : List Char → Bool
  | [] => needle.isEmpty
  | c :: t => needle.isPrefixOf (c :: t) || containsSubAux needle t

/-- Python substring test `needle in hay` for strings. -/
def strContains (hay needle : String) : Bool := containsSubAux needle.data hay.data

/-- Python `sep.join(parts)`. -/
def pyJoin (sep : String) : List String → String
  | [] => ""
  | [a] => a
  | a :: b :: rest => a ++ sep ++ pyJoin sep (b :: rest)

/-- The rational n + 1/2, built in reduced form so it computes in the kernel.
Used for the half-integer salary figures (3.5, 4.5, 5.5, 6.5) of the catalog. -/
def oddHalf (n : Nat) : ℚ :=
  ⟨2 * (n : Int) + 1, 2, by norm_num, by
    rw [Nat.coprime_two_right, Int.natAbs_odd]
    exact ⟨n, by ring⟩⟩

theorem oddHalf_val (n : Nat) : oddHalf n = (2 * (n : ℚ) + 1) / 2 := by
  rw [oddHalf, Rat.mk'_eq_divInt, Rat.divInt_eq_div]; push_cast; ring

/-- One catalog entry of dataset.CAREERS. The `salaries` dict (keys entry/mid/senior)
is flattened into three fields; salaries are in LPA. -/
structure Career where
  role : String
  category : String
  description : String
  salaries_entry : ℚ
  salaries_mid : ℚ
  salaries_senior : ℚ
  risk : String
  keywords : List String
deriving DecidableEq, Repr

/-- Python `career["salaries"].get(key, 0)`: every record carries exactly the keys
entry/mid/senior, any other key yields the default 0. -/
def Career.salaryAt (c : Career) (key : String) : ℚ :=
  if key = "entry" then c.salaries_entry
  else if key = "mid" then c.salaries_mid
  else if key = "senior" then c.salaries_senior
  else 0

def career_sde : Career :=
  { role := "Software Development Engineer (Product)"
    category := "Technology"
    description :=
      "Build and maintain software products using programming languages like Python, Java, " ++
      "JavaScript, C++. Work on web applications, mobile apps, APIs, and backend systems. " ++
      "Skills include coding, debugging, software architecture, agile development, Git, " ++
      "cloud computing AWS Azure. Requires strong problem solving, adaptability to new tech, " ++
      "and teamwork skills to collaborate with product managers and designers."
    salaries_entry := 10, salaries_mid := 20, salaries_senior := 45
    risk := "medium"
    keywords := ["coding", "programming", "software", "developer", "engineer", "tech", "IT"] }

def career_service_swe : Career :=
  { role := "Service-Based Software Engineer"
    category := "Technology"
    description :=
      "Work in IT services companies like TCS, Infosys, Wipro on client projects. " ++
      "Maintain enterprise software, provide support, work on legacy systems. " ++
      "Stable corporate environment with structured career path. " ++
      "Skills include Java, .NET, SQL, enterprise software, consulting. " ++
      "Requires good communication, time management, and work ethic to handle client expectations."
    salaries_entry := 4, salaries_mid := 8, salaries_senior := 15
    risk := "low"
    keywords := ["IT services", "consulting", "enterprise", "corporate", "stable"] }

def career_data_scientist : Career :=
  { role := "Data Scientist"
    category := "Technology"
    description :=
      "Analyze large datasets using machine learning, statistical modeling, Python, R, SQL. " ++
      "Build predictive models, create data visualizations, extract insights from data. " ++
      "Work with AI, deep learning, neural networks, TensorFlow, scikit-learn. " ++
      "High demand role requiring statistics, mathematics, and programming skills. " ++
      "Needs critical thinking, curiosity, and ability to communicate complex findings to leadership."
    salaries_entry := 8, salaries_mid := 18, salaries_senior := 35
    risk := "medium"
    keywords := ["data", "machine learning", "AI", "analytics", "statistics", "python"] }

def career_cybersecurity : Career :=
  { role := "Cybersecurity Analyst"
    category := "Technology"
    description :=
      "Protect computer systems and networks from cyber threats, hackers, malware. " ++
      "Conduct security audits, penetration testing, incident response. " ++
      "Skills include network security, encryption, firewalls, SIEM, ethical hacking. " ++
      "Critical role with growing demand as digital threats increase. " ++
      "Requires attention to detail, problem solving under pressure, and continuous learning."
    salaries_entry := 6, salaries_mid := 14, salaries_senior := 28
    risk := "medium"
    keywords := ["security", "hacking", "networks", "protection", "cyber"] }

def career_consultant : Career :=
  { role := "Management Consultant"
    category := "Business"
    description :=
      "Advise organizations on strategy, operations, and business transformation. " ++
      "Work with McKinsey, BCG, Bain or similar firms. Analyze business problems, " ++
      "create presentations, develop recommendations for C-suite executives. " ++
      "Requires strong analytical skills, MBA preferred, intense travel and long hours. " ++
      "Demands exceptional communication, leadership, and adaptability."
    salaries_entry := 14, salaries_mid := 25, salaries_senior := 50
    risk := "high"
    keywords := ["consulting", "strategy", "business", "MBA", "corporate", "management"] }

def career_investment_banker : Career :=
  { role := "Investment Banker"
    category := "Finance"
    description :=
      "Work in financial services on mergers and acquisitions, IPOs, capital raising. " ++
      "Analyze company valuations, create financial models, pitch to clients. " ++
      "Elite finance role at Goldman Sachs, Morgan Stanley, JP Morgan. " ++
      "Extremely high compensation but demanding hours and high stress environment. " ++
      "Requires resilience, intense work ethic, and negotiation skills."
    salaries_entry := 15, salaries_mid := 30, salaries_senior := 60
    risk := "high"
    keywords := ["finance", "banking", "investment", "Wall Street", "money", "stocks"] }

def career_digital_marketer : Career :=
  { role := "Digital Marketing Specialist"
    category := "Marketing"
    description :=
      "Plan and execute online marketing campaigns using SEO, SEM, social media, " ++
      "content marketing, email marketing, Google Ads, Facebook Ads. " ++
      "Analyze campaign performance, optimize conversion rates, grow brand awareness. " ++
      "Creative role combining analytics and communication skills. " ++
      "Needs creativity, adaptability to trends, and teamwork."
    salaries_entry := 4, salaries_mid := 9, salaries_senior := 18
    risk := "medium"
    keywords := ["marketing", "digital", "social media", "advertising", "SEO", "creative"] }

def career_hr_generalist : Career :=
  { role := "Human Resources Generalist"
    category := "HR"
    description :=
      "Manage employee relations, recruitment, onboarding, payroll, benefits. " ++
      "Handle HR policies, training programs, performance management. " ++
      "Stable back-office corporate function with predictable career progression. " ++
      "Good for people who enjoy working with employees and organizational development. " ++
      "Relies heavily on interpersonal skills, empathy, communication, and conflict resolution."
    salaries_entry := oddHalf 3, salaries_mid := 7, salaries_senior := 14
    risk := "low"
    keywords := ["HR", "human resources", "recruitment", "people", "corporate"] }

def career_chartered_accountant : Career :=
  { role := "Chartered Accountant (Corporate)"
    category := "Finance"
    description :=
      "Handle accounting, auditing, taxation, financial reporting for corporations. " ++
      "CA certification required through ICAI. Work in Big 4 firms or corporate finance. " ++
      "Stable profession with guaranteed growth path in MNCs and public companies. " ++
      "Skills include accounting standards, IFRS, tax planning, financial analysis. " ++
      "Requires integrity, attention to detail, and time management."
    salaries_entry := 9, salaries_mid := 16, salaries_senior := 30
    risk := "low"
    keywords := ["accounting", "CA", "finance", "audit", "tax", "chartered accountant"] }

def career_doctor : Career :=
  { role := "Doctor (MBBS/Specialist)"
    category := "Healthcare"
    description :=
      "Diagnose and treat illnesses, perform surgeries, prescribe medications. " ++
      "Work in hospitals, clinics, or private practice. Requires medical degree (MBBS/MD). " ++
      "High social respect and impact but requires long education and high stress. " ++
      "Demands empathy, decision making under pressure, leadership, and lifelong learning."
    salaries_entry := 6, salaries_mid := 12, salaries_senior := 30
    risk := "low"
    keywords := ["doctor", "medical", "hospital", "health", "medicine", "physician"] }

def career_nurse : Career :=
  { role := "Registered Nurse"
    category := "Healthcare"
    description :=
      "Provide patient care, administer medicines, monitor health conditions, assist doctors. " ++
      "Work in hospitals, nursing homes, clinics. Requires nursing degree (B.Sc Nursing/GNM). " ++
      "Stable job with high demand globally. " ++
      "Requires patience, compassion, teamwork, and strong work ethic."
    salaries_entry := 3, salaries_mid := 6, salaries_senior := 10
    risk := "low"
    keywords := ["nurse", "nursing", "patient care", "hospital", "health"] }

def career_public_health : Career :=
  { role := "Public Health Analyst"
    category := "Healthcare"
    description :=
      "Analyze health trends, develop policy recommendations, manage community health programs. " ++
      "Work with government agencies, NGOs, research organizations. " ++
      "Focus on disease prevention, epidemiology, and health data. " ++
      "Requires data analysis, research, communication, and problem solving."
    salaries_entry := 5, salaries_mid := 10, salaries_senior := 18
    risk := "medium"
    keywords := ["public health", "policy", "research", "epidemiology", "analyst"] }

def career_medical_researcher : Career :=
  { role := "Medical Researcher"
    category := "Healthcare"
    description :=
      "Conduct clinical trials, laboratory research, drug development. " ++
      "Work in pharmaceutical companies, universities, research institutes. " ++
      "Advance medical science and discover new treatments. " ++
      "Requires scientific rigor, critical thinking, patience, and technical writing."
    salaries_entry := oddHalf 4, salaries_mid := 9, salaries_senior := 20
    risk := "medium"
    keywords := ["research", "science", "clinical", "pharma", "laboratory"] }

def career_healthcare_admin : Career :=
  { role := "Healthcare Administrator"
    category := "Healthcare"
    description :=
      "Manage hospital operations, departments, or healthcare facilities. " ++
      "Handle budgeting, staffing, compliance, patient services. " ++
      "Business side of medicine requiring management degree (MHA/MBA). " ++
      "Requires leadership, organizational skills, communication, and strategic planning."
    salaries_entry := 5, salaries_mid := 12, salaries_senior := 25
    risk := "medium"
    keywords := ["administration", "management", "hospital", "operations", "business"] }

def career_psu_officer : Career :=
  { role := "PSU Officer (GATE/Technical)"
    category := "Government"
    description :=
      "Work in public sector undertakings like ONGC, BHEL, NTPC, IOCL through GATE exam. " ++
      "Technical engineering role with government benefits, job security, pension. " ++
      "Highly secure job with premium entry-level pay and work-life balance. " ++
      "Suitable for engineering graduates seeking stability over high growth. " ++
      "Requires technical expertise, discipline, and adherence to protocols."
    salaries_entry := 10, salaries_mid := 16, salaries_senior := 24
    risk := "low"
    keywords := ["government", "PSU", "GATE", "engineering", "public sector", "stable"] }

def career_civil_services : Career :=
  { role := "Civil Services (IAS/IPS)"
    category := "Government"
    description :=
      "Prestigious administrative service through UPSC examination. " ++
      "Work as District Collector, Commissioner, policy maker in government. " ++
      "Immense power and social impact but extremely competitive entry. " ++
      "Requires years of preparation with uncertain outcome. " ++
      "Demands leadership, decision making, public speaking, and crisis management."
    salaries_entry := 7, salaries_mid := 12, salaries_senior := 20
    risk := "high"
    keywords := ["UPSC", "IAS", "IPS", "government", "civil services", "administration"] }

def career_state_clerk : Career :=
  { role := "State Govt Clerk/Assistant"
    category := "Government"
    description :=
      "Administrative clerical work in state government departments. " ++
      "Handle paperwork, records, public services in government offices. " ++
      "Secure employment with modest compensation and pension benefits. " ++
      "Low stress job with work-life balance, suitable for stability seekers. " ++
      "Requires organization, dependability, and routine task management."
    salaries_entry := 3, salaries_mid := oddHalf 5, salaries_senior := 9
    risk := "low"
    keywords := ["government", "clerk", "administrative", "state", "stable", "secure"] }

def career_graphic_designer : Career :=
  { role := "Graphic Designer"
    category := "Creative"
    description :=
      "Create visual content using Adobe Photoshop, Illustrator, InDesign, Figma. " ++
      "Design logos, branding, marketing materials, UI/UX interfaces. " ++
      "Portfolio-based career with variable growth depending on clients. " ++
      "Creative role requiring artistic skills and design thinking. " ++
      "Needs visual communication, attention to detail, and adaptability to feedback."
    salaries_entry := oddHalf 3, salaries_mid := oddHalf 6, salaries_senior := 12
    risk := "medium"
    keywords := ["design", "creative", "graphics", "art", "UI", "UX", "visual"] }

def career_content_writer : Career :=
  { role := "Content Writer"
    category := "Creative"
    description :=
      "Write articles, blogs, website content, social media posts, copywriting. " ++
      "Create engaging content for brands, publications, and digital platforms. " ++
      "Accessible entry-level role with growth through specialization in technical " ++
      "writing, SEO content, or brand storytelling. " ++
      "Requires strong written communication, creativity, and research skills."
    salaries_entry := 3, salaries_mid := 6, salaries_senior := 10
    risk := "medium"
    keywords := ["writing", "content", "creative", "copywriting", "blogs", "articles"] }

def career_founder : Career :=
  { role := "Startup Founder / Entrepreneur"
    category := "Business"
    description :=
      "Start and run your own business venture. Build products, raise funding, " ++
      "hire teams, scale operations. High risk with potential for unlimited upside " ++
      "or complete failure. Requires vision, resilience, business skills, networking. " ++
      "Not suitable for risk-averse individuals. " ++
      "Demands leadership, risk-taking, problem solving, and tenacity."
    salaries_entry := 0, salaries_mid := 0, salaries_senior := 100
    risk := "high"
    keywords := ["startup", "entrepreneur", "founder", "business", "innovation", "risk"] }

def career_sales_rep : Career :=
  { role := "Sales Development Rep"
    category := "Sales"
    description :=
      "Generate leads, cold calling, email outreach, qualify prospects for sales team. " ++
      "Work in B2B sales for software, services, or products companies. " ++
      "Performance-heavy role with commission-based compensation potential. " ++
      "High turnover but good path to account executive and sales management. " ++
      "Requires persistence, communication, persuasion, and resilience to rejection."
    salaries_entry := 5, salaries_mid := 10, salaries_senior := 20
    risk := "high"
    keywords := ["sales", "business development", "leads", "commission", "B2B"] }

/-- dataset.CAREERS, in source order. -/
def CAREERS : List Career :=
  [career_sde, career_service_swe, career_data_scientist, career_cybersecurity,
   career_consultant, career_investment_banker, career_digital_marketer, career_hr_generalist,
   career_chartered_accountant, career_doctor, career_nurse, career_public_health,
   career_medical_researcher, career_healthcare_admin, career_psu_officer,
   career_civil_services, career_state_clerk, career_graphic_designer,
   career_content_writer, career_founder, career_sales_rep]

def VALID_SALARY_RANGES : List String := ["entry", "growth", "premium"]

def VALID_TIME_HORIZONS : List String := ["immediate", "mid_term", "long_term"]

def VALID_RISK_LEVELS : List String := ["low", "medium", "high"]

/-- dataset.SALARY_BOUNDS; `float("inf")` is modelled as `none`. -/
def SALARY_BOUNDS : List (String × (ℚ × Option ℚ)) :=
  [("entry", (0, some 6)), ("growth", (6, some 12)), ("premium", (12, none))]

def TIME_HORIZON_MAP : List (String × String) :=
  [("immediate", "entry"), ("mid_term", "mid"), ("long_term", "senior")]

/-- Words of a whitespace-separated string (Python `s.split()`): splits on whitespace
runs and drops empty pieces. `acc` holds the current word reversed. -/
def wordsAux (acc : List Char) : List Char → List String
  | [] => if acc.isEmpty then [] else [⟨acc.reverse⟩]
  | c :: t =>
    if c.isWhitespace then
      (if acc.isEmpty then wordsAux [] t else ⟨acc.reverse⟩ :: wordsAux [] t)
    else wordsAux (c :: acc) t

def pySplitWs (s : String) : List String := wordsAux [] s.data

/-- dataset.get_dataset_vocabulary: iterates fields "domain" and "description", but the
records carry only "description" (no record has a "domain" or "skills" field), so only
lowercased description words are collected. The Python set is modelled as a
deduplicated list; downstream only membership would matter (the function is in fact
never called anywhere in the code base). -/
def get_dataset_vocabulary : List String :=
  ((CAREERS.map (fun c => pySplitWs (pyLower c.description))).flatten).eraseDups

/-! ## nlp_model.py -/

/-- nlp_model.CareerNLPModel._build_corpus, rendering of a salary number inside an
f-string (Python `str`): every salary in the catalog is an integer or an exact half,
so the half case renders as "<floor>.5". -/
def pyNumStr (q : ℚ) : String :=
  if q.den = 1 then toString q.num
  else toString (q.num / 2) ++ ".5"

/-- nlp_model.CareerNLPModel._build_corpus, document for one career: the text parts are
accumulated exactly as the Python list `text_parts` is, then joined with spaces. -/
def buildDocument (career : Career) : String :=
  let text_parts : List String :=
    [career.role, career.category, career.description,
     "risk level " ++ career.risk,
     career.risk ++ " risk appetite tolerance"]
  let text_parts := text_parts ++ career.keywords
  let text_parts := text_parts ++
    ["entry salary " ++ pyNumStr career.salaries_entry ++ " LPA",
     "mid salary " ++ pyNumStr career.salaries_mid ++ " LPA",
     "senior salary " ++ pyNumStr career.salaries_senior ++ " LPA"]
  let text_parts := text_parts ++
    (if career.salaries_entry ≤ 6 then ["entry level salary range"] else [])
  let text_parts := text_parts ++
    (if 6 < career.salaries_mid ∧ career.salaries_mid ≤ 12 then ["growth salary range mid-range"] else [])
  let text_parts := text_parts ++
    (if 12 < career.salaries_senior then ["premium salary high compensation"] else [])
  pyJoin " " text_parts

/-- nlp_model.CareerNLPModel._build_corpus: one document per catalog entry, index-aligned. -/
def build_corpus : List String := CAREERS.map buildDocument

/-- nlp_model.CareerNLPModel._build_user_query. The four parameters arrive as Python
values (each may be `None`; equality against the literals is Python `==`). The skills
part is appended only when `skills and skills.strip()` is truthy; a non-string,
non-None skills value would raise on `.strip()` and never occurs, modelled as no part. -/
def build_user_query (salary_range time_horizon risk_appetite skills : PyVal) : String :=
  let p1 : List String :=
    if salary_range = PyVal.str "entry" then
      ["entry level salary range", "0 to 6 LPA", "starting career fresh graduate"]
    else if salary_range = PyVal.str "growth" then
      ["growth salary range mid-range", "6 to 12 LPA", "career growth progression"]
    else if salary_range = PyVal.str "premium" then
      ["premium salary high compensation", "above 12 LPA", "senior level executive high paying"]
    else []
  let p2 : List String :=
    if time_horizon = PyVal.str "immediate" then
      ["entry level entry salary", "immediate opportunity available now", "fresh graduate starting"]
    else if time_horizon = PyVal.str "mid_term" then
      ["mid level salary experience", "2 to 5 years career progression", "growth opportunity advancement"]
    else if time_horizon = PyVal.str "long_term" then
      ["senior level salary experience", "5 plus years career established", "senior executive leadership"]
    else []
  let p3 : List String :=
    if risk_appetite = PyVal.str "low" then
      ["low risk stable secure", "job security predictable growth", "corporate government stable career"]
    else if risk_appetite = PyVal.str "medium" then
      ["medium risk balanced", "moderate stability growth", "balanced career opportunity"]
    else if risk_appetite = PyVal.str "high" then
      ["high risk appetite tolerance", "high reward potential startup", "entrepreneurial ambitious growth"]
    else []
  let p4 : List String :=
    match skills with
    | PyVal.str s => if s ≠ "" ∧ pyStrip s ≠ "" then [pyStrip s] else []
    | _ => []
  pyJoin " " (p1 ++ p2 ++ p3 ++ p4)

/-- One element of the result of nlp_model.CareerNLPModel.get_recommendations. -/
structure NlpResult where
  career : Career
  similarity_score : ℚ
  index : Nat
deriving DecidableEq, Repr

/-- nlp_model.CareerNLPModel.compute_similarity, with the vectorizer + cosine similarity
abstracted by the oracle `cos`: pairs every career index with its similarity to the
built query, then sorts by score descending (Python's stable sort with reverse=True). -/
def compute_similarity (cos : String → Nat → ℚ)
    (salary_range time_horizon risk_appetite skills : PyVal) : List (Nat × ℚ) :=
  let query := build_user_query salary_range time_horizon risk_appetite skills
  let scored_indices := (List.range CAREERS.length).map (fun i => (i, cos query i))
  scored_indices.mergeSort (fun a b => decide (b.2 ≤ a.2))

/-- The bound parameters of a call to nlp_model.CareerNLPModel.get_recommendations
(signature: salary_range, time_horizon, risk_appetite, skills=None, top_k=5). -/
structure NlpCallArgs where
  salary_range : PyVal
  time_horizon : PyVal
  risk_appetite : PyVal
  skills : PyVal
  top_k : PyVal
deriving DecidableEq, Repr

def lookupKw (kws : List (String × PyVal)) (name : String) : Option PyVal :=
  (kws.find? (fun p => p.1 = name)).map (fun p => p.2)

/-- Python argument binding for one parameter at position `i` named `name` with optional
default `dflt`: a positional argument wins (a duplicate keyword raises TypeError), else
the keyword, else the default, else TypeError (missing required positional argument). -/
def bindParam (pos : List PyVal) (kws : List (String × PyVal)) (i : Nat) (name : String)
    (dflt : Option PyVal) : Except PyError PyVal :=
  match pos.get? i with
  | some v =>
    match lookupKw kws name with
    | some _ => Except.error PyError.typeError
    | none => Except.ok v
  | none =>
    match lookupKw kws name with
    | some v => Except.ok v
    | none =>
      match dflt with
      | some d => Except.ok d
      | none => Except.error PyError.typeError

def nlpParamNames : List String :=
  ["salary_range", "time_horizon", "risk_appetite", "skills", "top_k"]

/-- Python call binding for CareerNLPModel.get_recommendations(*pos, **kws): too many
positional arguments or an unexpected keyword raises TypeError, then each parameter is
bound in order. -/
def bindNlpGetRecommendationsArgs (pos : List PyVal) (kws : List (String × PyVal)) :
    Except PyError NlpCallArgs :=
  if 5 < pos.length then Except.error PyError.typeError
  else if kws.any (fun p => ¬ nlpParamNames.contains p.1) then Except.error PyError.typeError
  else do
    let sr ← bindParam pos kws 0 "salary_range" none
    let th ← bindParam pos kws 1 "time_horizon" none
    let ra ← bindParam pos kws 2 "risk_appetite" none
    let sk ← bindParam pos kws 3 "skills" (some PyVal.none)
    let tk ← bindParam pos kws 4 "top_k" (some (PyVal.int 5))
    pure ⟨sr, th, ra, sk, tk⟩

/-- Python slice `l[:k]` where `k` is `None` or an int. -/
def pySliceTo (l : List α) (k : PyVal) : List α :=
  match k with
  | PyVal.none => l
  | PyVal.int n => if 0 ≤ n then l.take n.toNat else l.take (l.length - n.natAbs)
  | PyVal.str _ => l

/-- Placeholder record for list indexing; every index produced by compute_similarity is
in range, so this value is never selected. -/
def defaultCareerRecord : Career := ⟨"", "", "", 0, 0, 0, "", []⟩

/-- Body of nlp_model.CareerNLPModel.get_recommendations once its arguments are bound:
similarity scoring, the `[:top_k]` slice, and packaging of career records. -/
def nlpGetRecommendationsBody (cos : String → Nat → ℚ) (a : NlpCallArgs) : List NlpResult :=
  let scored_indices := compute_similarity cos a.salary_range a.time_horizon a.risk_appetite a.skills
  (pySliceTo scored_indices a.top_k).map (fun p =>
    { career := CAREERS.getD p.1 defaultCareerRecord
      similarity_score := p.2
      index := p.1 })

/-! ## logic.py -/

/-- logic.ValidationError: message plus the optional offending field. -/
structure ValidationError where
  message : String
  field : Option String
deriving DecidableEq, Repr

/-- The JSON request body as seen by logic.validate_inputs: each key may be absent
(`none`) or present with a Python value (which itself may be `PyVal.none`). -/
structure RequestData where
  salary_range : Option PyVal
  time_horizon : Option PyVal
  risk_appetite : Option PyVal
  skills : Option PyVal
deriving DecidableEq, Repr

/-- The dict returned by logic.validate_inputs. The three enum fields are normalized
strings; `skills` keeps its Python value: `""` (default), `None`/`0` (falsy values left
untouched by the `if skills:` guard), or the stripped string form of a truthy value. -/
structure ValidatedInputs where
  salary_range : String
  time_horizon : String
  risk_appetite : String
  skills : PyVal
deriving DecidableEq, Repr

/-- logic.validate_inputs. Note that each enum value is passed through
`str(v).lower().strip()` before the membership test, and the "Invalid ..." messages
interpolate the Python list reprs of the valid values. -/
def validate_inputs (data : RequestData) : Except ValidationError ValidatedInputs :=
  let srv := data.salary_range.getD PyVal.none
  if srv = PyVal.none then
    Except.error ⟨"salary_range is required", some "salary_range"⟩
  else
    let salary_range := pyStrip (pyLower (pyStr srv))
    if VALID_SALARY_RANGES.contains salary_range = false then
      Except.error ⟨"Invalid salary_range. Must be: ['entry', 'growth', 'premium']", some "salary_range"⟩
    else
      let thv := data.time_horizon.getD PyVal.none
      if thv = PyVal.none then
        Except.error ⟨"time_horizon is required", some "time_horizon"⟩
      else
        let time_horizon := pyStrip (pyLower (pyStr thv))
        if VALID_TIME_HORIZONS.contains time_horizon = false then
          Except.error ⟨"Invalid time_horizon. Must be: ['immediate', 'mid_term', 'long_term']", some "time_horizon"⟩
        else
          let rav := data.risk_appetite.getD PyVal.none
          if rav = PyVal.none then
            Except.error ⟨"risk_appetite is required", some "risk_appetite"⟩
          else
            let risk_appetite := pyStrip (pyLower (pyStr rav))
            if VALID_RISK_LEVELS.contains risk_appetite = false then
              Except.error ⟨"Invalid risk_appetite. Must be: ['low', 'medium', 'high']", some "risk_appetite"⟩
            else
              let skv := data.skills.getD (PyVal.str "")
              let skills := if pyTruthy skv then PyVal.str (pyStrip (pyStr skv)) else skv
              Except.ok ⟨salary_range, time_horizon, risk_appetite, skills⟩

/-- logic.calculate_salary_score, lines 70-71: resolve the salary stage. -/
def stageSalary (career : Career) (time_horizon : String) : ℚ :=
  career.salaryAt ((TIME_HORIZON_MAP.lookup time_horizon).getD "entry")

/-- logic.calculate_salary_score, line 72: `SALARY_BOUNDS.get(salary_range, (0, float("inf")))`. -/
def salaryBand (salary_range : String) : ℚ × Option ℚ :=
  (SALARY_BOUNDS.lookup salary_range).getD (0, none)

/-- logic.calculate_salary_score. The chained comparison `min_sal <= salary <= max_sal`
is inclusive on both ends; `max_sal != float("inf")` guards the 0.8 branch. -/
def calculate_salary_score (career : Career) (salary_range time_horizon : String) : ℚ :=
  let salary := stageSalary career time_horizon
  let bounds := salaryBand salary_range
  let min_sal := bounds.1
  let withinUpper : Bool :=
    match bounds.2 with
    | none => true
    | some max_sal => decide (salary ≤ max_sal)
  if min_sal ≤ salary ∧ withinUpper = true then 1
  else if (match bounds.2 with
           | none => false
           | some max_sal => decide (max_sal < salary)) = true then 0.8
  else if 0 < min_sal then max 0.2 (salary / min_sal)
  else 0.5

/-- Python `["low", "medium", "high"].index(s)`: `none` models the ValueError case. -/
def riskIndex (s : String) : Option Nat :=
  if s = "low" then some 0
  else if s = "medium" then some 1
  else if s = "high" then some 2
  else none

/-- logic.calculate_risk_score; the try/except ValueError fallback returns 0.5. -/
def calculate_risk_score (career : Career) (risk_appetite : String) : ℚ :=
  let career_risk := pyLower career.risk
  match riskIndex career_risk, riskIndex risk_appetite with
  | some c_idx, some u_idx =>
    if c_idx ≤ u_idx then 1
    else max 0.2 (1 - ((c_idx : ℚ) - (u_idx : ℚ)) * 0.3)
  | _, _ => 0.5

/-- logic.get_domain_constraints, the keyword table mapping dataset categories to
trigger keywords, in source order. -/
def domains : List (String × List String) :=
  [("Technology",
    ["technology", "tech", "software", "programming", "coding", "developer", "development",
     "engineer", "engineering", "computer", "it", "information technology",
     "python", "java", "javascript", "react", "node", "sql", "database", "web", "mobile",
     "app", "api", "backend", "frontend", "fullstack",
     "data", "ai", "artificial intelligence", "machine learning", "ml", "deep learning",
     "cloud", "aws", "azure", "devops", "cybersecurity", "security", "cyber", "network",
     "build", "code", "debug", "deploy", "algorithm",
     "data science", "data analysis", "analytics", "big data", "visualization",
     "statistics", "tensorflow", "scikit"]),
   ("Healthcare",
    ["medical", "medicine", "doctor", "physician", "surgeon", "healthcare", "health",
     "mbbs", "md", "specialist",
     "patient", "patients", "diagnose", "diagnosis", "treatment", "clinical", "clinic",
     "care", "cure", "heal", "illness", "disease",
     "nurse", "nursing", "patient care",
     "hospital", "emergency", "surgery", "operate", "operating room",
     "public health", "epidemiology", "policy", "community health",
     "medical research", "clinical trials", "pharmaceutical", "pharma", "laboratory",
     "healthcare administrator", "hospital management",
     "anatomy", "physiology", "pathology"]),
   ("Finance",
    ["finance", "financial", "money", "banking", "bank", "investment", "investing",
     "accounting", "accountant", "audit", "auditing", "ca", "chartered accountant",
     "stock", "trading", "trader", "market", "equity", "bonds", "portfolio",
     "wall street", "wealth", "asset", "fund",
     "financial analysis", "valuation", "financial modeling",
     "tax", "taxation", "ifrs", "budget", "revenue", "profit"]),
   ("Business",
    ["business", "management", "manager", "consulting", "consultant", "strategy",
     "corporate", "enterprise", "company", "mba", "bcg", "mckinsey", "bain",
     "startup", "entrepreneur", "entrepreneurship", "founder", "innovation",
     "operations", "operational", "administration",
     "lead", "manage", "organize"]),
   ("Marketing",
    ["marketing", "digital marketing", "digital", "social media", "advertising",
     "seo", "sem", "google ads", "facebook ads", "content marketing", "email marketing",
     "campaign", "branding", "brand", "creative", "conversion"]),
   ("HR",
    ["hr", "human resources", "recruitment", "recruiter", "hiring", "talent",
     "employee", "people", "onboarding", "payroll", "benefits",
     "employee relations", "performance management", "training"]),
   ("Government",
    ["government", "govt", "public sector", "psu", "civil services",
     "upsc", "ias", "ips", "gate", "administrative",
     "ongc", "bhel", "ntpc", "iocl",
     "stable", "secure", "pension", "clerk", "state government"]),
   ("Creative",
    ["design", "designer", "graphic", "graphics", "ui", "ux", "user experience",
     "user interface", "creative", "art", "artist", "visual",
     "photoshop", "illustrator", "figma", "adobe",
     "writer", "writing", "content", "copywriting", "blogs", "articles",
     "create", "branding"]),
   ("Sales",
    ["sales", "selling", "business development", "bd", "leads", "lead generation",
     "b2b", "commission",
     "cold calling", "outreach", "prospecting", "closing", "negotiate"])]

/-- logic.get_domain_constraints: a category is activated when any of its trigger
keywords occurs as a substring of the lowercased skills text. The Python code collects
the names into a `set` and returns `list(constraints)`, whose iteration order is
implementation-defined; the model returns the activated names in table order, and only
membership is meaningful (downstream use is membership-only). -/
def get_domain_constraints (skills : String) : List String :=
  if skills.data.isEmpty then []
  else
    let skills_lower := pyLower skills
    (domains.filter (fun d => d.2.any (fun kw => strContains skills_lower kw))).map
      (fun d => d.1)

/-- logic.check_domain_match. -/
def check_domain_match (career : Career) (constraints : List String) : Bool :=
  if constraints.isEmpty then true
  else constraints.contains career.category

/-- logic.get_recommendations, step 3 (lines 284-294): keep candidates with similarity
at least 0.30; when none survive, fall back to the first three of the (similarity-sorted,
domain-filtered) input list. -/
def thresholdGate (filtered_step1 : List NlpResult) : List NlpResult :=
  let candidates := filtered_step1.filter (fun res => decide (0.30 ≤ res.similarity_score))
  if candidates.isEmpty then filtered_step1.take 3 else candidates

/-- One element of logic.get_recommendations' scored_results list. -/
structure ScoredCandidate where
  career : Career
  total_score : ℚ
  nlp_score : ℚ
  sal_score : ℚ
  risk_score : ℚ
deriving DecidableEq, Repr

/-- logic.get_recommendations, step 4 (lines 296-317): weighted scoring of the surviving
candidates with W_NLP = 0.70, W_SALARY = 0.15, W_RISK = 0.15. -/
def scoreCandidates (candidates : List NlpResult)
    (salary_range time_horizon risk_appetite : String) : List ScoredCandidate :=
  candidates.map (fun item =>
    let nlp_score := item.similarity_score
    let sal_score := calculate_salary_score item.career salary_range time_horizon
    let risk_score := calculate_risk_score item.career risk_appetite
    { career := item.career
      total_score := 0.70 * nlp_score + 0.15 * sal_score + 0.15 * risk_score
      nlp_score := nlp_score
      sal_score := sal_score
      risk_score := risk_score })

/-- Round a rational to the nearest integer multiple of 1/100, half to even, matching
Python's fixed-point rendering of the corresponding value. -/
def round2 (q : ℚ) : Int :=
  let x := q * 100
  let f := ⌊x⌋
  if x - (f : ℚ) < 1 / 2 then f
  else if (1 : ℚ) / 2 < x - (f : ℚ) then f + 1
  else if f % 2 = 0 then f else f + 1

/-- Python `f"{q:.2f}"` on the modelled rational. -/
def fmt2 (q : ℚ) : String :=
  let n := round2 q
  let a := n.natAbs
  (if n < 0 then "-" else "") ++ toString (a / 100) ++ "." ++
    (if a % 100 < 10 then "0" else "") ++ toString (a % 100)

/-- logic.get_recommendations, the per-result reason string (lines 333-336). -/
def mkReason (item : ScoredCandidate) : String :=
  "Total Score: " ++ fmt2 item.total_score ++ "/1.00 | " ++
  "Relevance (NLP): " ++ fmt2 item.nlp_score ++ " (70% weight) | " ++
  "Salary Match: " ++ fmt2 item.sal_score ++ " (15% weight) | " ++
  "Risk Match: " ++ fmt2 item.risk_score ++ " (15% weight)"

/-- One element of the recommended list returned by logic.get_recommendations. -/
structure Recommended where
  role : String
  reason : String
deriving DecidableEq, Repr

/-- logic.get_recommendations, step 5 feasibility note (lines 343-351). `recommended` is
empty exactly when `final_results` is (it is a map over it), so the note is a function
of `final_results`. -/
def feasibilityNote (final_results : List ScoredCandidate) : String :=
  match final_results with
  | [] => "No matching careers found for this domain/query."
  | top :: _ =>
    if top.nlp_score < 0.30 then "Low relevance matches. Try broader terms."
    else "Matches found based on your skills and preferences."

/-- logic.get_recommendations. Line 262 calls
`nlp_model.get_recommendations(skills, top_k=None)`, i.e. one positional argument plus
the `top_k` keyword, against the five-parameter signature of
CareerNLPModel.get_recommendations; the call binding is modelled first, and a binding
failure propagates as the raised TypeError. The remaining pipeline (domain purity
filter, threshold gate, scoring, ranking, formatting, note) is the body of lines
264-353. -/
def get_recommendations (cos : String → Nat → ℚ)
    (salary_range time_horizon risk_appetite : String) (skills : PyVal) :
    Except PyError (List Recommended × String) :=
  match bindNlpGetRecommendationsArgs [skills] [("top_k", PyVal.none)] with
  | Except.error e => Except.error e
  | Except.ok args =>
    let nlp_results := nlpGetRecommendationsBody cos args
    let domain_constraints := if pyTruthy skills then get_domain_constraints (pyStr skills) else []
    let filtered_step1 := nlp_results.filter (fun res => check_domain_match res.career domain_constraints)
    let candidates := thresholdGate filtered_step1
    let scored_results := scoreCandidates candidates salary_range time_horizon risk_appetite
    let sorted_results := scored_results.mergeSort (fun a b => decide (b.total_score ≤ a.total_score))
    let final_results := sorted_results.take 3
    let recommended := final_results.map (fun item =>
      ({ role := item.career.role, reason := mkReason item } : Recommended))
    Except.ok (recommended, feasibilityNote final_results)

/-! ## api.py -/

/-- The three response shapes of the POST /recommend handler: 200, 400, 500. -/
inductive ApiResponse where
  | success (recommended_careers : List Recommended) (feasibility_note : String)
  | badRequest (error : String) (field : Option String)
  | serverError (error : String)
deriving DecidableEq, Repr

/-- api.recommend: validate, then call the core; a ValidationError maps to a 400 with
the field, any other exception to a 500 (message abstracted). -/
def recommend_endpoint (cos : String → Nat → ℚ) (data : RequestData) : ApiResponse :=
  match validate_inputs data with
  | Except.error e => ApiResponse.badRequest e.message e.field
  | Except.ok v =>
    match get_recommendations cos v.salary_range v.time_horizon v.risk_appetite v.skills with
    | Except.ok r => ApiResponse.success r.1 r.2
    | Except.error _ => ApiResponse.serverError "Internal server error"

/-! ## Definitions following the claims' words (for comparison), and witness fixtures -/

/-- The salary score as claim C5 words it: a half-open band [lo, hi) (entry [0,6),
growth [6,12), premium [12,∞)); 1.0 exactly when the stage salary lies within the
half-open band, 0.8 when it is at or above the band's upper bound, otherwise
max(0.2, salary / lo), with 0.5 when lo = 0. A second definition following the spec's
words, to compare against calculate_salary_score. -/
def claimedSalaryScore (career : Career) (salary_range time_horizon : String) : ℚ :=
  let salary := stageSalary career time_horizon
  let bounds := salaryBand salary_range
  match bounds.2 with
  | some hi =>
    if bounds.1 ≤ salary ∧ salary < hi then 1
    else if hi ≤ salary then 0.8
    else if bounds.1 = 0 then 0.5
    else max 0.2 (salary / bounds.1)
  | none =>
    if bounds.1 ≤ salary then 1
    else if bounds.1 = 0 then 0.5
    else max 0.2 (salary / bounds.1)

/-- The corpus document as claim C8 words it: exactly role, category, description, and
the keywords each repeated five times, nothing else — a second definition following the
spec's words, to compare against buildDocument. -/
def claimedCorpusDocument (career : Career) : String :=
  pyJoin " " ([career.role, career.category, career.description] ++
    (career.keywords.map (fun k => List.replicate 5 k)).flatten)

/-- The query text built for salary_range=entry, time_horizon=immediate,
risk_appetite=low when no skills part is appended. -/
def fixedEntryImmediateLowQuery : String :=
  "entry level salary range 0 to 6 LPA starting career fresh graduate " ++
  "entry level entry salary immediate opportunity available now fresh graduate starting " ++
  "low risk stable secure job security predictable growth corporate government stable career"

/-- A similarity-sorted candidate list on which no candidate reaches the 0.30
threshold. -/
def gateWitnessList : List NlpResult :=
  [{ career := career_sde, similarity_score := 0, index := 0 },
   { career := career_doctor, similarity_score := 0, index := 9 }]

/-- The scored candidate produced from career_doctor with similarity 1 under
entry/immediate/low: salary score 1 (entry salary 6 inside the entry band), risk
score 1 (low risk vs low appetite), total 0.70*1 + 0.15*1 + 0.15*1 = 1. -/
def weightWitnessItem : ScoredCandidate :=
  { career := career_doctor, total_score := 1, nlp_score := 1,
    sal_score := 1, risk_score := 1 }

/-- A request with the unknown salary_range "ultra" and otherwise valid fields. -/
def ultraRequest : RequestData :=
  { salary_range := some (PyVal.str "ultra"), time_horizon := some (PyVal.str "immediate"),
    risk_appetite := some (PyVal.str "low"), skills := some (PyVal.str "management") }

/-- The scored result list of a premium/immediate/low request whose one candidate has
similarity 0.1 (below the 0.30 low-confidence threshold). -/
def lowRelevanceScored : List ScoredCandidate :=
  scoreCandidates [{ career := career_sde, similarity_score := 0.1, index := 0 }]
    "premium" "immediate" "low"

/-! ## Theorems -/

/-- C1 (amended): the call site logic.py:262 passes the skills value positionally into
the salary_range parameter of CareerNLPModel.get_recommendations and supplies no value
for the required time_horizon and risk_appetite parameters (Python does not default
them to None), so the call raises TypeError for every input and every similarity
oracle; get_recommendations never assigns any nlp_score at all, 0.0 or otherwise. -/
theorem C1_nlp_call_always_type_error (cos : String → Nat → ℚ)
    (salary_range time_horizon risk_appetite : String) (skills : PyVal) :
    get_recommendations cos salary_range time_horizon risk_appetite skills
      = Except.error PyError.typeError := rfl

/-- C1 counterexample: at the concrete skills string "doctor" (not one of the enum
strings 'entry'/'growth'/'premium'), get_recommendations does not produce a scored
result with nlp_score 0.0 for every catalog entry — it raises TypeError, so no scores
exist. -/
theorem C1_counterexample :
    get_recommendations (fun _ _ => 0) "entry" "immediate" "low" (PyVal.str "doctor")
      = Except.error PyError.typeError := rfl

/-- C2 (amended): the skills text "doctor patient hospital" activates exactly the
category set containing Technology and Healthcare — Technology because the Technology
trigger keyword "it" occurs as a substring of "hospital" — and the request then raises
TypeError from the mis-bound NLP call, so no ranked_list is returned at all. -/
theorem C2_domain_activation_and_crash :
    (∀ c : String, c ∈ get_domain_constraints "doctor patient hospital" ↔
      (c = "Technology" ∨ c = "Healthcare"))
    ∧ get_recommendations (fun _ _ => 0) "entry" "immediate" "low"
        (PyVal.str "doctor patient hospital") = Except.error PyError.typeError := by
  constructor
  · have h : get_domain_constraints "doctor patient hospital" = ["Technology", "Healthcare"] := by
      decide
    intro c
    rw [h]
    simp
  · rfl

/-- C2 counterexample: Technology is also activated by "doctor patient hospital"
(trigger "it" ⊆ "hospital"), so the activated set is not exactly the singleton
Healthcare. -/
theorem C2_counterexample :
    "Technology" ∈ get_domain_constraints "doctor patient hospital" := by decide

/-- C3 (supporting evaluation for the code_bug): the skills text
"finance investment stocks" activates the non-empty domain set, exactly Finance, yet
get_recommendations raises TypeError from the mis-arity NLP call for every similarity
oracle, so no ranked_list is ever returned and the domain-purity contract on returned
entries is unfulfillable. -/
theorem C3_domain_active_but_no_result :
    get_domain_constraints "finance investment stocks" = ["Finance"]
    ∧ get_domain_constraints "finance investment stocks" ≠ []
    ∧ ∀ cos : String → Nat → ℚ,
        get_recommendations cos "entry" "immediate" "low"
          (PyVal.str "finance investment stocks") = Except.error PyError.typeError :=
  ⟨by decide, by decide, fun _ => rfl⟩

/-- The salary band resolved for any salary_range string is one of the three catalog
bands or the (0, ∞) default. -/
theorem salaryBand_cases (sr : String) :
    salaryBand sr = (0, some 6) ∨ salaryBand sr = (6, some 12)
    ∨ salaryBand sr = (12, none) ∨ salaryBand sr = (0, none) := by
  by_cases h1 : sr = "entry"
  · simp [salaryBand, SALARY_BOUNDS, List.lookup, h1]
  · by_cases h2 : sr = "growth"
    · simp [salaryBand, SALARY_BOUNDS, List.lookup, h1, h2]
    · by_cases h3 : sr = "premium"
      · simp [salaryBand, SALARY_BOUNDS, List.lookup, h1, h2, h3]
      · have e1 : (sr == "entry") = false := beq_eq_false_iff_ne.2 h1
        have e2 : (sr == "growth") = false := beq_eq_false_iff_ne.2 h2
        have e3 : (sr == "premium") = false := beq_eq_false_iff_ne.2 h3
        simp [salaryBand, SALARY_BOUNDS, List.lookup, e1, e2, e3]

/-- In every band with a finite upper bound, the lower bound is below the upper
bound. -/
theorem salaryBand_lo_le (sr : String) (m : ℚ) (h : (salaryBand sr).2 = some m) :
    (salaryBand sr).1 ≤ m := by
  rcases salaryBand_cases sr with h4 | h4 | h4 | h4 <;> rw [h4] at h ⊢ <;>
    simp_all <;> norm_num [h.symm]

/-- C4: the threshold gate keeps exactly the domain-filtered candidates with
nlp_score ≥ 0.30; when that set is empty it instead yields the first three (or fewer)
candidates of the similarity-sorted domain-filtered list — hence at most three, drawn
from that list, still in similarity-descending order; and when the domain-filtered
list is itself empty the gate yields the empty list and the scoring step produces
nothing. -/
theorem C4_threshold_gate_spec (l : List NlpResult)
    (hsorted : List.Sorted (fun a b : NlpResult => b.similarity_score ≤ a.similarity_score) l) :
    (l.filter (fun res => decide (0.30 ≤ res.similarity_score)) ≠ [] →
      thresholdGate l = l.filter (fun res => decide (0.30 ≤ res.similarity_score)))
    ∧ (l.filter (fun res => decide (0.30 ≤ res.similarity_score)) = [] →
        thresholdGate l = l.take 3
        ∧ (thresholdGate l).length ≤ 3
        ∧ (∀ r ∈ thresholdGate l, r ∈ l)
        ∧ List.Sorted (fun a b : NlpResult => b.similarity_score ≤ a.similarity_score)
            (thresholdGate l))
    ∧ (l = [] →
        thresholdGate l = []
        ∧ ∀ sr th ra, scoreCandidates (thresholdGate l) sr th ra = []) := by
  refine ⟨?_, ?_, ?_⟩
  · intro h
    simp [thresholdGate, List.isEmpty_iff, h]
  · intro h
    have hg : thresholdGate l = l.take 3 := by simp [thresholdGate, List.isEmpty_iff, h]
    refine ⟨hg, ?_, ?_, ?_⟩
    · rw [hg]; simp [List.length_take]
    · intro r hr; rw [hg] at hr; exact List.take_subset _ _ hr
    · rw [hg]; exact hsorted.sublist (List.take_sublist _ _)
  · intro h
    subst h
    exact ⟨rfl, fun _ _ _ => rfl⟩

/-- C4 witness: on the concrete similarity-sorted list gateWitnessList (all similarities
zero, so the threshold filter is empty) the gate returns its first three elements. -/
theorem C4_threshold_gate_witness :
    thresholdGate gateWitnessList = gateWitnessList.take 3 :=
  ((C4_threshold_gate_spec gateWitnessList (by simp [gateWitnessList])).2.1
    (by
      have h : ¬ ((0.30 : ℚ) ≤ 0) := by norm_num
      simp [gateWitnessList, List.filter, h])).1

/-- C5 (amended): the band comparison of calculate_salary_score is closed, not
half-open: the score is 1.0 whenever the stage salary lies within the closed band
(lower and upper bound included), 0.8 exactly when the band has a finite upper bound
and the salary strictly exceeds it, and for a salary strictly below the lower bound it
is max(0.2, salary / lower bound) when the lower bound is positive and 0.5 when the
lower bound is 0. -/
theorem C5_salary_score_characterization (c : Career) (sr th : String) :
    ((salaryBand sr).1 ≤ stageSalary c th ∧
        (∀ m, (salaryBand sr).2 = some m → stageSalary c th ≤ m) →
      calculate_salary_score c sr th = 1)
    ∧ (∀ m, (salaryBand sr).2 = some m → m < stageSalary c th →
        calculate_salary_score c sr th = 0.8)
    ∧ (stageSalary c th < (salaryBand sr).1 → 0 < (salaryBand sr).1 →
        calculate_salary_score c sr th = max 0.2 (stageSalary c th / (salaryBand sr).1))
    ∧ (stageSalary c th < (salaryBand sr).1 → (salaryBand sr).1 = 0 →
        calculate_salary_score c sr th = 0.5) := by
  refine ⟨?_, ?_, ?_, ?_⟩
  · rintro ⟨h1, h2⟩
    simp only [calculate_salary_score]
    rcases hb : (salaryBand sr).2 with _ | m
    · split_ifs with hc1 hc2 hc3 <;>
        first
          | rfl
          | exact absurd ⟨h1, rfl⟩ hc1
    · split_ifs with hc1 hc2 hc3 <;>
        first
          | rfl
          | exact absurd ⟨h1, decide_eq_true (h2 m hb)⟩ hc1
  · intro m hb hm
    simp only [calculate_salary_score]
    rw [hb]
    rw [if_neg, if_pos]
    · exact decide_eq_true hm
    · rintro ⟨-, hd⟩
      exact absurd (of_decide_eq_true hd) (not_le.2 hm)
  · intro hlt hpos
    simp only [calculate_salary_score]
    rcases hb : (salaryBand sr).2 with _ | m
    · split_ifs with hc1 hc2
      · exact absurd hc1.1 (not_le.2 hlt)
      · exact hc2.elim
      · rfl
    · have hm : stageSalary c th ≤ m := le_trans hlt.le (salaryBand_lo_le sr m hb)
      split_ifs with hc1 hc2
      · exact absurd hc1.1 (not_le.2 hlt)
      · exact absurd (of_decide_eq_true hc2) (not_lt.2 hm)
      · rfl
  · intro hlt h0
    simp only [calculate_salary_score]
    rcases hb : (salaryBand sr).2 with _ | m
    · split_ifs with hc1 hc2 hc3
      · exact absurd hc1.1 (not_le.2 hlt)
      · simp at hc2
      · rw [h0] at hc3
        exact absurd hc3 (lt_irrefl 0)
      · rfl
    · have hm : stageSalary c th ≤ m := le_trans hlt.le (salaryBand_lo_le sr m hb)
      split_ifs with hc1 hc2 hc3
      · exact absurd hc1.1 (not_le.2 hlt)
      · exact absurd (of_decide_eq_true hc2) (not_lt.2 hm)
      · rw [h0] at hc3
        exact absurd hc3 (lt_irrefl 0)
      · rfl

/-- C5 counterexample: the Doctor record's entry-stage salary is exactly 6, the upper
bound of the entry band. The claim's half-open band [0,6) with "0.8 at or above the
upper bound" demands 0.8 there, but the code's closed-band comparison returns 1.0. -/
theorem C5_counterexample :
    calculate_salary_score career_doctor "entry" "immediate" = 1
    ∧ claimedSalaryScore career_doctor "entry" "immediate" = 0.8
    ∧ (1 : ℚ) ≠ 0.8 := by
  refine ⟨by decide, ?_, by norm_num⟩
  have hs : stageSalary career_doctor "immediate" = 6 := by decide
  have hb : salaryBand "entry" = (0, some 6) := by decide
  rw [claimedSalaryScore]
  rw [hs, hb]
  norm_num

/-- C5 witness: applying the characterization at the Doctor record with
salary_range=premium (entry salary 6 is below the premium lower bound 12), the score is
the floored ratio max(0.2, 6/12) = 1/2. -/
theorem C5_salary_score_witness :
    calculate_salary_score career_doctor "premium" "immediate" = 1 / 2 := by
  have h := (C5_salary_score_characterization career_doctor "premium" "immediate").2.2.1
    (by decide) (by decide)
  rw [h]
  have hs : stageSalary career_doctor "immediate" = 6 := by decide
  have hb : salaryBand "premium" = (12, none) := by decide
  rw [hs, hb]
  norm_num

/-- C6: weight identity — every candidate scored by the scoring step of
logic.get_recommendations (lines 296-317) has
total_score = 0.70*nlp_score + 0.15*sal_score + 0.15*risk_score, with the three
weights the fixed constants W_NLP, W_SALARY, W_RISK; exact over the rational model,
hence within any floating-point tolerance. -/
theorem C6_weight_identity (candidates : List NlpResult)
    (salary_range time_horizon risk_appetite : String) (item : ScoredCandidate)
    (h : item ∈ scoreCandidates candidates salary_range time_horizon risk_appetite) :
    item.total_score
      = 0.70 * item.nlp_score + 0.15 * item.sal_score + 0.15 * item.risk_score := by
  rcases List.mem_map.1 h with ⟨x, -, rfl⟩
  rfl

/-- C6 witness: the weight identity applied to the concrete candidate built from
career_doctor with similarity 1 under entry/immediate/low. -/
theorem C6_weight_identity_witness :
    weightWitnessItem.total_score
      = 0.70 * weightWitnessItem.nlp_score + 0.15 * weightWitnessItem.sal_score
        + 0.15 * weightWitnessItem.risk_score :=
  C6_weight_identity [{ career := career_doctor, similarity_score := 1, index := 9 }]
    "entry" "immediate" "low" weightWitnessItem
    (by
      have h1 : calculate_salary_score career_doctor "entry" "immediate" = 1 := by decide
      have h2 : calculate_risk_score career_doctor "low" = 1 := by decide
      simp only [scoreCandidates, List.map_cons, List.map_nil, h1, h2]
      rw [show (0.70 * 1 + 0.15 * 1 + 0.15 * 1 : ℚ) = 1 by norm_num]
      exact List.mem_singleton.mpr rfl)

/-- C7 counterexample: the raw salary_range value " ENTRY " lies outside
{entry, growth, premium}, yet validate_inputs does not raise — it silently lowercases
and strips the value onto the enum member "entry" and succeeds. -/
theorem C7_counterexample :
    validate_inputs
        { salary_range := some (PyVal.str " ENTRY "),
          time_horizon := some (PyVal.str "immediate"),
          risk_appetite := some (PyVal.str "low"),
          skills := none }
      = Except.ok
          { salary_range := "entry", time_horizon := "immediate",
            risk_appetite := "low", skills := PyVal.str "" }
    ∧ " ENTRY " ∉ VALID_SALARY_RANGES :=
  ⟨rfl, by decide⟩

/-- C7 (amended): rejection is keyed on the lowercased and stripped string form of the
value: whenever `str(v).lower().strip()` is outside {entry, growth, premium} (for
example "ultra"), validate_inputs raises ValidationError with field "salary_range",
and the /recommend handler answers 400 with that field before the core scoring is ever
invoked; values differing from an enum member only by case or surrounding whitespace
are silently normalized onto it (see the counterexample). -/
theorem C7_validation_rejects_unknown_salary_range (data : RequestData) (v : PyVal)
    (h1 : data.salary_range = some v) (h2 : v ≠ PyVal.none)
    (h3 : pyStrip (pyLower (pyStr v)) ∉ VALID_SALARY_RANGES) :
    validate_inputs data
      = Except.error
          ⟨"Invalid salary_range. Must be: ['entry', 'growth', 'premium']",
           some "salary_range"⟩
    ∧ ∀ cos : String → Nat → ℚ,
        recommend_endpoint cos data
          = ApiResponse.badRequest
              "Invalid salary_range. Must be: ['entry', 'growth', 'premium']"
              (some "salary_range") := by
  have hcont : VALID_SALARY_RANGES.contains (pyStrip (pyLower (pyStr v))) = false := by
    simpa using h3
  have hv : validate_inputs data
      = Except.error
          ⟨"Invalid salary_range. Must be: ['entry', 'growth', 'premium']",
           some "salary_range"⟩ := by
    simp only [validate_inputs, h1, Option.getD_some]
    rw [if_neg h2, if_pos hcont]
  exact ⟨hv, fun cos => by simp [recommend_endpoint, hv]⟩

/-- C7 witness: the amended claim applied to the request with salary_range "ultra". -/
theorem C7_validation_witness :
    validate_inputs ultraRequest
      = Except.error
          ⟨"Invalid salary_range. Must be: ['entry', 'growth', 'premium']",
           some "salary_range"⟩
    ∧ ∀ cos : String → Nat → ℚ,
        recommend_endpoint cos ultraRequest
          = ApiResponse.badRequest
              "Invalid salary_range. Must be: ['entry', 'growth', 'premium']"
              (some "salary_range") :=
  C7_validation_rejects_unknown_salary_range ultraRequest (PyVal.str "ultra")
    rfl (by decide) (by decide)

set_option maxRecDepth 16384 in
/-- C8 counterexample: for the first catalog record the corpus document differs from
the claimed role+category+description+keywords×5 concatenation — the real document
keeps each keyword once and adds risk and salary phrases. -/
theorem C8_counterexample :
    buildDocument career_sde ≠ claimedCorpusDocument career_sde := by decide

set_option maxRecDepth 16384 in
/-- C8 (amended): each corpus document is the space-join of role, category,
description, the two risk phrases, the keywords each exactly once, the three salary
context phrases, and the salary-band phrases whose conditions hold; for every catalog
record this differs from the claimed role+category+description+keywords×5 form. -/
theorem C8_corpus_document (c : Career) (h : c ∈ CAREERS) :
    buildDocument c
      = pyJoin " " ([c.role, c.category, c.description,
          "risk level " ++ c.risk, c.risk ++ " risk appetite tolerance"]
          ++ c.keywords
          ++ ["entry salary " ++ pyNumStr c.salaries_entry ++ " LPA",
              "mid salary " ++ pyNumStr c.salaries_mid ++ " LPA",
              "senior salary " ++ pyNumStr c.salaries_senior ++ " LPA"]
          ++ (if c.salaries_entry ≤ 6 then ["entry level salary range"] else [])
          ++ (if 6 < c.salaries_mid ∧ c.salaries_mid ≤ 12 then
                ["growth salary range mid-range"] else [])
          ++ (if 12 < c.salaries_senior then ["premium salary high compensation"] else []))
    ∧ buildDocument c ≠ claimedCorpusDocument c := by
  refine ⟨rfl, ?_⟩
  fin_cases h <;> decide

set_option maxRecDepth 16384 in
/-- C8 witness: the amended statement applied to the Doctor record. -/
theorem C8_corpus_document_witness :
    buildDocument career_doctor ≠ claimedCorpusDocument career_doctor :=
  (C8_corpus_document career_doctor (by decide)).2

/-- pyJoin over a non-empty list with one element appended splits off the separator
and the last element. -/
theorem pyJoin_append_one (s x a : String) (l : List String) :
    pyJoin s (a :: l ++ [x]) = pyJoin s (a :: l) ++ s ++ x := by
  induction l generalizing a with
  | nil => rfl
  | cons b t ih =>
    show a ++ s ++ pyJoin s (b :: t ++ [x]) = a ++ s ++ pyJoin s (b :: t) ++ s ++ x
    rw [ih b]
    simp [String.append_assoc]

set_option maxRecDepth 16384 in
/-- C9 counterexample: with blank skills the query built for entry/immediate/low is
the fixed nine-phrase template string, not the empty string the claim demands for
blank skills input. -/
theorem C9_counterexample :
    build_user_query (PyVal.str "entry") (PyVal.str "immediate") (PyVal.str "low")
        (PyVal.str " ")
      = fixedEntryImmediateLowQuery
    ∧ fixedEntryImmediateLowQuery ≠ "" :=
  ⟨by decide, by decide⟩

/-- C9 (amended): the query is the space-join of the fixed template phrases selected by
salary_range, time_horizon and risk_appetite, with the raw stripped skills text
appended exactly once when it is non-blank — no lowercasing, no intent-table
expansion, no vocabulary filtering against the catalog, and no threefold repetition —
and a blank or empty skills input leaves just the template phrases (here, for
entry/immediate/low, a fixed non-empty string), not an empty query. -/
theorem C9_query_construction (sk : String) :
    build_user_query (PyVal.str "entry") (PyVal.str "immediate") (PyVal.str "low")
        (PyVal.str sk)
      = (if sk ≠ "" ∧ pyStrip sk ≠ ""
         then fixedEntryImmediateLowQuery ++ " " ++ pyStrip sk
         else fixedEntryImmediateLowQuery) := by
  have hq : build_user_query (PyVal.str "entry") (PyVal.str "immediate") (PyVal.str "low")
      (PyVal.str sk)
      = pyJoin " " (["entry level salary range", "0 to 6 LPA",
          "starting career fresh graduate", "entry level entry salary",
          "immediate opportunity available now", "fresh graduate starting",
          "low risk stable secure", "job security predictable growth",
          "corporate government stable career"]
          ++ (if sk ≠ "" ∧ pyStrip sk ≠ "" then [pyStrip sk] else [])) := rfl
  rw [hq]
  by_cases h : sk ≠ "" ∧ pyStrip sk ≠ ""
  · rw [if_pos h, if_pos h]
    exact pyJoin_append_one " " (pyStrip sk) "entry level salary range"
      ["0 to 6 LPA", "starting career fresh graduate", "entry level entry salary",
       "immediate opportunity available now", "fresh graduate starting",
       "low risk stable secure", "job security predictable growth",
       "corporate government stable career"]
  · rw [if_neg h, if_neg h]
    rfl

/-- C10 (amended): the feasibility narrator produces only one of the three fixed
messages — the no-match message, the low-relevance message (whenever the top
candidate's nlp_score is below 0.30), or the generic matches-found message. No
templated premium/low-risk/immediate caution exists anywhere in the code, so the
premium-immediate-low low-confidence scenario yields the generic low-relevance
message (see the counterexample), and in the actual pipeline no note is produced at
all because the NLP call raises TypeError first. -/
theorem C10_feasibility_note_fixed_set (final_results : List ScoredCandidate) :
    feasibilityNote final_results = "No matching careers found for this domain/query."
    ∨ feasibilityNote final_results = "Low relevance matches. Try broader terms."
    ∨ feasibilityNote final_results
        = "Matches found based on your skills and preferences." := by
  cases final_results with
  | nil => exact Or.inl rfl
  | cons top rest =>
    by_cases h : top.nlp_score < 0.30
    · exact Or.inr (Or.inl (by simp [feasibilityNote, h]))
    · exact Or.inr (Or.inr (by simp [feasibilityNote, h]))

/-- C10 counterexample: for a premium/immediate/low request whose sole candidate has
similarity 0.1 (top total score below the low-confidence threshold), the note is the
generic low-relevance message — not a specific caution about low-risk
premium-immediate combinations, which exists nowhere in the code. -/
theorem C10_counterexample :
    feasibilityNote lowRelevanceScored = "Low relevance matches. Try broader terms." := by
  show feasibilityNote
      [{ career := career_sde
         total_score := 0.70 * 0.1
           + 0.15 * calculate_salary_score career_sde "premium" "immediate"
           + 0.15 * calculate_risk_score career_sde "low"
         nlp_score := 0.1
         sal_score := calculate_salary_score career_sde "premium" "immediate"
         risk_score := calculate_risk_score career_sde "low" }]
      = "Low relevance matches. Try broader terms."
  simp only [feasibilityNote]
  rw [if_pos (by norm_num)]
